import Mathlib

/-
Verification of the pyKinesis serial-protocol engine
(Tracking Solar Telescope / pyKinesis.py).

The definitions below are a shallow embedding of the Python source:
struct.pack / struct.unpack become range-checked byte-list builders
returning Option (none models a struct.error exception), real-valued
positions become rationals, Python int() becomes truncation toward
zero, and the serial connection becomes an explicit event trace
(writes, reads, buffer flushes).
-/

namespace PyKinesis

/-- Little-endian byte list of a value packed with struct format I
(unsigned 32-bit). -/
def u32LEbytes (m : ℕ) : List ℕ :=
  [m % 256, m / 256 % 256, m / 65536 % 256, m / 16777216 % 256]

/-- Little-endian decode of the first four bytes of a list, as done by
struct.unpack format I on the receive side. -/
def u32LEdecode : List ℕ → ℕ
  | b0 :: b1 :: b2 :: b3 :: _ => b0 + 256 * b1 + 65536 * b2 + 16777216 * b3
  | _ => 0

/-- struct.pack with format <HBBBB: one unsigned 16-bit field followed by four
unsigned 8-bit fields, little endian.  Out-of-range arguments raise
struct.error in Python, modelled as none. -/
def pack_HBBBB (a b c d e : ℤ) : Option (List ℕ) :=
  if 0 ≤ a ∧ a < 65536 ∧ 0 ≤ b ∧ b < 256 ∧ 0 ≤ c ∧ c < 256 ∧
      0 ≤ d ∧ d < 256 ∧ 0 ≤ e ∧ e < 256 then
    some [a.toNat % 256, a.toNat / 256, b.toNat, c.toNat, d.toNat, e.toNat]
  else none

/-- struct.pack with format <HBBBBHI, used by Move_Absolute: the 6-byte
header fields, then a 16-bit channel word and an unsigned 32-bit position.
Out-of-range arguments (in particular a negative value for the I field)
raise struct.error in Python, modelled as none. -/
def pack_HBBBBHI (a b c d e f g : ℤ) : Option (List ℕ) :=
  if 0 ≤ a ∧ a < 65536 ∧ 0 ≤ b ∧ b < 256 ∧ 0 ≤ c ∧ c < 256 ∧
      0 ≤ d ∧ d < 256 ∧ 0 ≤ e ∧ e < 256 ∧ 0 ≤ f ∧ f < 65536 ∧
      0 ≤ g ∧ g < 4294967296 then
    some ([a.toNat % 256, a.toNat / 256, b.toNat, c.toNat, d.toNat, e.toNat,
      f.toNat % 256, f.toNat / 256] ++ u32LEbytes g.toNat)
  else none

/-- struct.unpack with format <HHBB applied to the 6-byte receive header,
as in getHWinfo: 16-bit message id, 16-bit length-or-params word, then the
destination and source bytes.  A buffer that is not exactly 6 bytes raises
struct.error, modelled as none. -/
def unpack_HHBB : List ℕ → Option (ℕ × ℕ × ℕ × ℕ)
  | [b0, b1, b2, b3, b4, b5] => some (b0 + 256 * b1, b2 + 256 * b3, b4, b5)
  | _ => none

/-- Python int() applied to a real value: truncation toward zero. -/
def pyInt (q : ℚ) : ℤ := if 0 ≤ q then ⌊q⌋ else ⌈q⌉

/-- Python str.lower for the ASCII strings used by this code base: maps
each character to lower case. -/
def pyLower (s : String) : String := ⟨s.data.map Char.toLower⟩

/-- ThorController.get_destination_byte: benchtop controllers address
channel bays from base 0x20, every other (cube) controller uses 0x50. -/
def get_destination_byte (controllerType : String) (channel : ℕ) : ℕ :=
  if controllerType = "benchtop" then 0x20 + channel else 0x50

/-- Message written by ThorController.Stay_Alive
(MGMSG_MOT_ACK_DCSTATUSUPDATE, id 0x0492). -/
def Stay_Alive_msg (controllerType : String) (channel : ℕ) : Option (List ℕ) :=
  pack_HBBBB 0x0492 0x00 0x00 (get_destination_byte controllerType channel : ℤ) 0x01

/-- Message written by ThorController.Home (MGMSG_MOT_MOVE_HOME, id 0x0443). -/
def Home_msg (controllerType : String) (channel : ℕ) : Option (List ℕ) :=
  pack_HBBBB 0x0443 0x01 0x00 (get_destination_byte controllerType channel : ℤ) 0x01

/-- Long message written by ThorController.Move_Absolute
(MGMSG_MOT_MOVE_ABSOLUTE, id 0x0453): header with the data-packet flag
0x80 or-ed onto the destination byte, then a 16-bit channel word fixed to
0x01 and the device-unit target int(posScaleFactor * Position) packed as
unsigned 32-bit. -/
def Move_Absolute_msg (posScale Position : ℚ) (controllerType : String)
    (channel : ℕ) : Option (List ℕ) :=
  pack_HBBBBHI 0x0453 0x06 0x00
    ((get_destination_byte controllerType channel ||| 0x80 : ℕ) : ℤ) 0x01 0x01
    (pyInt (posScale * Position))

/-- ThorController.getPosition applied to the 12-byte reply it reads:
struct.unpack <6sHI skips the 6-byte header and the 16-bit channel word,
takes the unsigned 32-bit device-unit position at offset 8 and divides by
the position scale factor.  A reply that is not exactly 12 bytes raises
struct.error, modelled as none. -/
def getPosition_fromReply (posScale : ℚ) (reply : List ℕ) : Option ℚ :=
  if reply.length = 12 then some ((u32LEdecode (reply.drop 8) : ℚ) / posScale)
  else none

/-- Observable serial-connection actions performed by an operation. -/
inductive Ev
  | write (msg : List ℕ)
  | readChunk (bs : List ℕ)
  | flushIn
  | flushOut
deriving DecidableEq

/-- Bytes of pack <H 0x0444, the MGMSG_MOT_MOVE_HOMED wait sentinel. -/
def Homed_bytes : List ℕ := [0x44, 0x04]

/-- Read loop of ThorController.Home with wait true: keeps reading 2-byte
chunks until one equals the homed sentinel.  If the sentinel never arrives
on the stream the Python loop never returns, modelled as none. -/
def homeWaitReads : List (List ℕ) → Option (List Ev)
  | [] => none
  | c :: cs =>
    if c = Homed_bytes then some [Ev.readChunk c]
    else (homeWaitReads cs).map (fun evs => Ev.readChunk c :: evs)

/-- Event trace of ThorController.Home: write the home message, optionally
block reading 2-byte chunks until the homed sentinel, then flush both
buffers and send the keep-alive message. -/
def Home_events (controllerType : String) (channel : ℕ) (wait : Bool)
    (rx : List (List ℕ)) : Option (List Ev) :=
  (Home_msg controllerType channel).bind fun hm =>
    (Stay_Alive_msg controllerType channel).bind fun ka =>
      if wait then
        (homeWaitReads rx).map
          (fun rs => Ev.write hm :: (rs ++ [Ev.flushIn, Ev.flushOut, Ev.write ka]))
      else some [Ev.write hm, Ev.flushIn, Ev.flushOut, Ev.write ka]

/-- Predicate picking out writes of the keep-alive message, recognised by
its leading id bytes 0x92 0x04 (pack <H 0x0492). -/
def isKAwrite : Ev → Bool
  | Ev.write (b0 :: b1 :: _) => b0 == 0x92 && b1 == 0x04
  | _ => false

/-- Predicate picking out read events. -/
def isRead : Ev → Bool
  | Ev.readChunk _ => true
  | _ => false

/-- Session object produced by the ThorController constructor: the lowered
controller-type string and whether the Serial_Port attribute was ever
assigned (it is not when serial.Serial raised and the except branch only
printed a message). -/
structure Session where
  controllerType : String
  serialPortSet : Bool
deriving DecidableEq

/-- Outcome of the constructor: the raised invalid-controller-type
exception, or a normally returned session object. -/
inductive InitResult
  | configError
  | ok (s : Session)
deriving DecidableEq

/-- The Controller_Types list of the source. -/
def controllerTypes : List String := ["cube", "benchtop"]

/-- ThorController.__init__: lowers the controller-type argument, raises
on an unknown value before any serial object is created, otherwise tries
to open the port (portOpenSucceeds tells whether serial.Serial succeeded;
on failure the exception is caught and only a message is printed).  The
second component records whether a serial open was attempted. -/
def ThorController_init (controllerTypeArg : String) (portOpenSucceeds : Bool) :
    InitResult × Bool :=
  let ct := pyLower controllerTypeArg
  if ct ∈ controllerTypes then
    (InitResult.ok { controllerType := ct, serialPortSet := portOpenSucceeds }, true)
  else
    (InitResult.configError, false)

/-- Python errors observable from session operations. -/
inductive PyError
  | attributeError
  | structError
deriving DecidableEq

/-- ThorController.Stay_Alive run against a session: touching the
Serial_Port attribute of a session on which it was never set raises
AttributeError; otherwise the keep-alive message is written. -/
def Stay_Alive_run (s : Session) (channel : ℕ) : Except PyError (List Ev) :=
  if s.serialPortSet then
    match Stay_Alive_msg s.controllerType channel with
    | some m => Except.ok [Ev.write m]
    | none => Except.error PyError.structError
  else Except.error PyError.attributeError

/-- ThorController.Initialize run against a session: info request, buffer
resets, no-flash-programming message, final flush.  Touching the missing
Serial_Port attribute raises AttributeError. -/
def Initialize_run (s : Session) (channel : ℕ) : Except PyError (List Ev) :=
  if s.serialPortSet then
    match pack_HBBBB 0x0005 0x00 0x00 (get_destination_byte s.controllerType channel : ℤ) 0x01,
        pack_HBBBB 0x0018 0x00 0x00 (get_destination_byte s.controllerType channel : ℤ) 0x01 with
    | some m5, some m18 =>
      Except.ok [Ev.write m5, Ev.flushIn, Ev.flushOut, Ev.write m18, Ev.flushIn, Ev.flushOut]
    | _, _ => Except.error PyError.structError
  else Except.error PyError.attributeError

/-- Probe message of getDestination: pack <HBBBB 0x0005 to the default
compact address 0x50. -/
def probe_msg : Option (List ℕ) := pack_HBBBB 0x0005 0x00 0x00 0x50 0x01

/-- getDestination: writes the probe, reads up to 90 bytes (rx is what the
device delivers within the timeout), flushes input and output, and returns
0x50 when any bytes arrived and the sentinel 0x11 otherwise. -/
def getDestination (rx : List ℕ) : Option (ℕ × List Ev) :=
  match probe_msg with
  | some m =>
    some (if (rx.take 90).length > 0 then 0x50 else 0x11,
      [Ev.write m, Ev.readChunk (rx.take 90), Ev.flushIn, Ev.flushOut])
  | none => none

/-- One serial write: a keep-alive message (ka) or any other protocol
command (tx). -/
inductive Cmd
  | tx
  | ka
deriving DecidableEq

/-- Count of commands since the last keep-alive after one more write. -/
def step (n : ℕ) : Cmd → ℕ
  | Cmd.tx => n + 1
  | Cmd.ka => 0

/-- Count of commands since the last keep-alive after a list of writes. -/
def runCmds (n : ℕ) : List Cmd → ℕ
  | [] => n
  | c :: cs => runCmds (step n c) cs

/-- Whether the count of commands since the last keep-alive ever reaches
50 while executing the given writes from starting count n. -/
def reaches50 (n : ℕ) : List Cmd → Bool
  | [] => false
  | c :: cs => decide (50 ≤ step n c) || reaches50 (step n c) cs

/-- Public operations of a ThorController session.  initCtrl stands for
the Initialize method. -/
inductive Op
  | initCtrl
  | identify
  | enable
  | disable
  | home
  | move_absolute
  | get_position
  | get_status
  | get_encoder_count
  | keep_alive
deriving DecidableEq

/-- Serial writes performed by each public operation, in source order:
Initialize writes the info request and the no-flash-programming command
and never calls Stay_Alive; every other operation ends each burst with
Stay_Alive, and benchtop enable and disable send their burst twice. -/
def opTrace (benchtop : Bool) : Op → List Cmd
  | Op.initCtrl => [Cmd.tx, Cmd.tx]
  | Op.identify => [Cmd.tx, Cmd.ka]
  | Op.enable => if benchtop then [Cmd.tx, Cmd.ka, Cmd.tx, Cmd.ka] else [Cmd.tx, Cmd.ka]
  | Op.disable => if benchtop then [Cmd.tx, Cmd.ka, Cmd.tx, Cmd.ka] else [Cmd.tx, Cmd.ka]
  | Op.home => [Cmd.tx, Cmd.ka]
  | Op.move_absolute => [Cmd.tx, Cmd.ka]
  | Op.get_position => [Cmd.tx, Cmd.ka]
  | Op.get_status => [Cmd.tx, Cmd.ka]
  | Op.get_encoder_count => [Cmd.tx, Cmd.ka]
  | Op.keep_alive => [Cmd.ka]

/-- Serial writes of a whole sequence of public operations. -/
def opsTrace (benchtop : Bool) (ops : List Op) : List Cmd :=
  (ops.map (opTrace benchtop)).flatten

/-- Number of Initialize calls in a sequence of operations. -/
def countInits : List Op → ℕ
  | [] => 0
  | Op.initCtrl :: rest => countInits rest + 1
  | _ :: rest => countInits rest

/-- Truncation toward zero changes a value by strictly less than one. -/
lemma pyInt_sub_abs_lt (q : ℚ) : |(pyInt q : ℚ) - q| < 1 := by
  rw [pyInt]
  split
  · rename_i h
    rw [abs_sub_comm, abs_of_nonneg (sub_nonneg.mpr (Int.floor_le q))]
    have h1 := Int.sub_one_lt_floor q
    linarith
  · rename_i h
    rw [abs_of_nonneg (sub_nonneg.mpr (Int.le_ceil q))]
    have h1 := Int.ceil_lt_add_one q
    linarith

/-- Truncation toward zero never increases the magnitude. -/
lemma pyInt_abs_le (q : ℚ) : |(pyInt q : ℚ)| ≤ |q| := by
  rw [pyInt]
  split
  · rename_i h
    rw [abs_of_nonneg h, abs_of_nonneg (by exact_mod_cast Int.floor_nonneg.mpr h)]
    exact Int.floor_le q
  · rename_i h
    push_neg at h
    have hc : (⌈q⌉ : ℚ) ≤ 0 := by
      have h2 : ⌈q⌉ ≤ (0 : ℤ) := Int.ceil_le.mpr (by exact_mod_cast h.le)
      exact_mod_cast h2
    rw [abs_of_nonpos h.le, abs_of_nonpos hc]
    exact neg_le_neg (Int.le_ceil q)

/-- Byte-level form of a successful pack <HBBBB. -/
lemma pack_HBBBB_some (a b c d e : ℤ) (bs : List ℕ)
    (h : pack_HBBBB a b c d e = some bs) :
    bs = [a.toNat % 256, a.toNat / 256, b.toNat, c.toNat, d.toNat, e.toNat] := by
  rw [pack_HBBBB] at h
  split at h
  · exact (Option.some.inj h).symm
  · exact absurd h (by simp)

/-- Byte-level form of a successful Move_Absolute message, together with
the range facts the pack check guarantees for the device-unit target. -/
lemma Move_Absolute_msg_some (sc P : ℚ) (ct : String) (ch : ℕ) (bs : List ℕ)
    (h : Move_Absolute_msg sc P ct ch = some bs) :
    0 ≤ pyInt (sc * P) ∧ pyInt (sc * P) < 4294967296 ∧
      bs = [83, 4, 6, 0, get_destination_byte ct ch ||| 128, 1, 1, 0] ++
        u32LEbytes (pyInt (sc * P)).toNat := by
  rw [Move_Absolute_msg, pack_HBBBBHI] at h
  split at h
  · rename_i hc
    obtain ⟨-, -, -, -, -, -, -, -, -, -, -, -, hg0, hg1⟩ := hc
    refine ⟨hg0, hg1, ?_⟩
    rw [← Option.some.inj h]
    norm_num [show ((1107 : ℤ)).toNat = 1107 from rfl, show ((6 : ℤ)).toNat = 6 from rfl,
      show ((0 : ℤ)).toNat = 0 from rfl, show ((1 : ℤ)).toNat = 1 from rfl,
      Int.toNat_natCast]
  · exact absurd h (by simp)

/-- Unsigned 32-bit little-endian encode then decode is the identity. -/
lemma u32_roundtrip (m : ℕ) (hm : m < 4294967296) :
    u32LEdecode (u32LEbytes m) = m := by
  simp only [u32LEbytes, u32LEdecode]
  omega

/-- Concrete evaluation of pyInt at the spec scenario value. -/
lemma pyInt_50000 : pyInt (2000 * 25 : ℚ) = 50000 := by
  have h1 : (2000 * 25 : ℚ) = ((50000 : ℕ) : ℚ) := by norm_num
  rw [pyInt, h1, if_pos (by positivity)]
  exact Int.floor_natCast 50000

/-- Concrete bytes of the spec scenario message: move_absolute to 25.0 on
a cube session with position scale 2000. -/
lemma Move_msg_example :
    Move_Absolute_msg 2000 25 "cube" 1 = some [83, 4, 6, 0, 208, 1, 1, 0, 80, 195, 0, 0] := by
  rw [Move_Absolute_msg, pyInt_50000]
  decide

/-- Claim C1: on a session with positive position scale sc, after
move_absolute transmits its device-unit target and the device reports
back exactly that transmitted device-unit field, getPosition returns a
value within one device unit worth of the requested position. -/
theorem C1_unit_conversion_roundtrip (sc P : ℚ) (ct : String) (ch : ℕ)
    (bs hdr chanb : List ℕ) (hs : 0 < sc)
    (hmsg : Move_Absolute_msg sc P ct ch = some bs)
    (hhdr : hdr.length = 6) (hchan : chanb.length = 2) :
    ∃ v, getPosition_fromReply sc (hdr ++ (chanb ++ List.drop 8 bs)) = some v ∧
      |v - P| ≤ 1 / sc := by
  obtain ⟨hg0, hg1, hbs⟩ := Move_Absolute_msg_some sc P ct ch bs hmsg
  have hdrop : List.drop 8 bs = u32LEbytes (pyInt (sc * P)).toNat := by
    rw [hbs]; rfl
  have hlen : (hdr ++ (chanb ++ List.drop 8 bs)).length = 12 := by
    simp [hdrop, hhdr, hchan, u32LEbytes]
  have hdroprep : (hdr ++ (chanb ++ List.drop 8 bs)).drop 8 = List.drop 8 bs := by
    rw [← List.append_assoc]
    exact List.drop_left' (by simp [hhdr, hchan])
  refine ⟨(u32LEdecode (List.drop 8 bs) : ℚ) / sc, ?_, ?_⟩
  · rw [getPosition_fromReply, if_pos hlen, hdroprep]
  · have hdec : u32LEdecode (List.drop 8 bs) = (pyInt (sc * P)).toNat := by
      rw [hdrop]; exact u32_roundtrip _ (by omega)
    have hcast : ((u32LEdecode (List.drop 8 bs) : ℕ) : ℚ) = ((pyInt (sc * P) : ℤ) : ℚ) := by
      rw [hdec]; exact_mod_cast congrArg (fun t : ℤ => (t : ℚ)) (Int.toNat_of_nonneg hg0)
    rw [hcast]
    have key : ((pyInt (sc * P) : ℤ) : ℚ) / sc - P = (((pyInt (sc * P) : ℤ) : ℚ) - sc * P) / sc := by
      field_simp
    rw [key, abs_div, abs_of_pos hs]
    exact (div_le_div_iff_of_pos_right hs).mpr (pyInt_sub_abs_lt (sc * P)).le

/-- Witness for C1 at the spec scenario: scale 2000, position 25. -/
theorem C1_witness :
    ∃ v, getPosition_fromReply 2000
        ([0, 0, 0, 0, 0, 0] ++ ([1, 0] ++ List.drop 8 [83, 4, 6, 0, 208, 1, 1, 0, 80, 195, 0, 0])) =
          some v ∧ |v - 25| ≤ 1 / 2000 :=
  C1_unit_conversion_roundtrip 2000 25 "cube" 1 [83, 4, 6, 0, 208, 1, 1, 0, 80, 195, 0, 0]
    [0, 0, 0, 0, 0, 0] [1, 0] (by norm_num) Move_msg_example rfl rfl

/-- Claim C2 (amended): the transmitted device-unit target equals
int(posScaleFactor * Position), truncation toward zero: it differs from
the exact product by strictly less than one device unit and never exceeds
it in magnitude.  The claim as frozen said nearest-integer rounding, which
is refuted by C2_counterexample. -/
theorem C2_device_unit_truncation (sc P : ℚ) (ct : String) (ch : ℕ) (bs : List ℕ)
    (hmsg : Move_Absolute_msg sc P ct ch = some bs) :
    ((u32LEdecode (List.drop 8 bs) : ℤ) = pyInt (sc * P)) ∧
    |((u32LEdecode (List.drop 8 bs) : ℚ)) - sc * P| < 1 ∧
    |((u32LEdecode (List.drop 8 bs) : ℚ))| ≤ |sc * P| := by
  obtain ⟨hg0, hg1, hbs⟩ := Move_Absolute_msg_some sc P ct ch bs hmsg
  have hdrop : List.drop 8 bs = u32LEbytes (pyInt (sc * P)).toNat := by
    rw [hbs]; rfl
  have hdec : u32LEdecode (List.drop 8 bs) = (pyInt (sc * P)).toNat := by
    rw [hdrop]; exact u32_roundtrip _ (by omega)
  have hz : ((u32LEdecode (List.drop 8 bs) : ℤ)) = pyInt (sc * P) := by
    rw [hdec]; exact Int.toNat_of_nonneg hg0
  have hq : ((u32LEdecode (List.drop 8 bs) : ℚ)) = ((pyInt (sc * P) : ℤ) : ℚ) := by
    exact_mod_cast hz
  exact ⟨hz, by rw [hq]; exact pyInt_sub_abs_lt (sc * P),
    by rw [hq]; exact pyInt_abs_le (sc * P)⟩

/-- Counterexample for C2 as frozen: with scale 2 and position 9/10 the
transmitted device-unit field is 1 while nearest-integer rounding of the
product is 2. -/
theorem C2_counterexample :
    (Move_Absolute_msg 2 (9 / 10) "cube" 1).map (fun bs => (u32LEdecode (List.drop 8 bs) : ℤ)) =
        some 1 ∧
      round ((9 / 10 : ℚ) * 2) = 2 ∧ (1 : ℤ) ≠ 2 := by
  refine ⟨?_, ?_, by decide⟩
  · have hz : pyInt (2 * (9 / 10) : ℚ) = 1 := by
      have h1 : (2 * (9 / 10) : ℚ) = 9 / 5 := by norm_num
      rw [pyInt, h1, if_pos (by norm_num), Int.floor_eq_iff]
      norm_num
    rw [Move_Absolute_msg, hz]
    decide
  · have h1 : ((9 / 10 : ℚ) * 2) = 9 / 5 := by norm_num
    rw [h1, round_eq, show (9 / 5 : ℚ) + 1 / 2 = 23 / 10 by norm_num, Int.floor_eq_iff]
    norm_num

/-- Witness for C2 at the spec scenario: scale 2000, position 25. -/
theorem C2_witness :
    ((u32LEdecode (List.drop 8 [83, 4, 6, 0, 208, 1, 1, 0, 80, 195, 0, 0]) : ℤ) =
        pyInt ((2000 : ℚ) * 25)) ∧
    |((u32LEdecode (List.drop 8 [83, 4, 6, 0, 208, 1, 1, 0, 80, 195, 0, 0]) : ℚ)) -
        (2000 : ℚ) * 25| < 1 ∧
    |((u32LEdecode (List.drop 8 [83, 4, 6, 0, 208, 1, 1, 0, 80, 195, 0, 0]) : ℚ))| ≤
        |(2000 : ℚ) * 25| :=
  C2_device_unit_truncation 2000 25 "cube" 1 _ Move_msg_example

/-- Claim C3 (amended): the long move-absolute payload is the 16-bit
channel word followed by the device-unit target packed as an UNSIGNED
32-bit integer; a negative device-unit target is rejected with a
struct.error rather than transmitted in twos-complement form.  The claim
as frozen said negative targets are transmitted, refuted by
C3_counterexample. -/
theorem C3_payload_encoding (sc P : ℚ) (ct : String) (ch : ℕ) :
    (∀ bs, Move_Absolute_msg sc P ct ch = some bs →
      List.drop 6 bs = [1, 0] ++ u32LEbytes (pyInt (sc * P)).toNat ∧ 0 ≤ pyInt (sc * P)) ∧
    (pyInt (sc * P) < 0 → Move_Absolute_msg sc P ct ch = none) := by
  constructor
  · intro bs hmsg
    obtain ⟨hg0, hg1, hbs⟩ := Move_Absolute_msg_some sc P ct ch bs hmsg
    exact ⟨by rw [hbs]; rfl, hg0⟩
  · intro hneg
    rw [Move_Absolute_msg, pack_HBBBBHI]
    apply if_neg
    intro hc
    obtain ⟨-, -, -, -, -, -, -, -, -, -, -, -, hg0, -⟩ := hc
    omega

/-- Counterexample for C3 as frozen: moving to position -1 on a session
with scale 2000 raises struct.error instead of transmitting the message. -/
theorem C3_counterexample : Move_Absolute_msg 2000 (-1) "cube" 1 = none := by
  have hz : pyInt (2000 * (-1) : ℚ) = -2000 := by
    have h1 : (2000 * (-1) : ℚ) = ((-2000 : ℤ) : ℚ) := by norm_num
    rw [pyInt, h1, if_neg (by norm_num), Int.ceil_intCast]
  rw [Move_Absolute_msg, hz]
  decide

/-- Witness for C3: the positive scenario payload and the rejected
negative move. -/
theorem C3_witness :
    (List.drop 6 [83, 4, 6, 0, 208, 1, 1, 0, 80, 195, 0, 0] =
        [1, 0] ++ u32LEbytes (pyInt ((2000 : ℚ) * 25)).toNat ∧
      0 ≤ pyInt ((2000 : ℚ) * 25)) ∧
    Move_Absolute_msg 2000 (-1) "cube" 1 = none :=
  ⟨(C3_payload_encoding 2000 25 "cube" 1).1 _ Move_msg_example,
   (C3_payload_encoding 2000 (-1) "cube" 1).2 (by
      have h1 : (2000 * (-1) : ℚ) = ((-2000 : ℤ) : ℚ) := by norm_num
      rw [pyInt, h1, if_neg (by norm_num), Int.ceil_intCast]
      decide)⟩

/-- Claim C4: encoding a short message whose fields are in range with the
6-byte little-endian transmit layout and decoding those bytes with the
receive-side header layout recovers all five fields, param1 and param2 as
the low and high byte of the 16-bit middle word. -/
theorem C4_short_message_roundtrip (msgid p1 p2 dest src : ℤ)
    (h1 : 0 ≤ msgid) (h2 : msgid < 65536) (h3 : 0 ≤ p1) (h4 : p1 < 256)
    (h5 : 0 ≤ p2) (h6 : p2 < 256) (h7 : 0 ≤ dest) (h8 : dest < 256)
    (h9 : 0 ≤ src) (h10 : src < 256) :
    ∃ bs, pack_HBBBB msgid p1 p2 dest src = some bs ∧
      unpack_HHBB bs = some (msgid.toNat, p1.toNat + 256 * p2.toNat, dest.toNat, src.toNat) ∧
      (p1.toNat + 256 * p2.toNat) % 256 = p1.toNat ∧
      (p1.toNat + 256 * p2.toNat) / 256 = p2.toNat := by
  refine ⟨[msgid.toNat % 256, msgid.toNat / 256, p1.toNat, p2.toNat, dest.toNat, src.toNat],
    ?_, ?_, by omega, by omega⟩
  · rw [pack_HBBBB, if_pos]
    exact ⟨h1, h2, h3, h4, h5, h6, h7, h8, h9, h10⟩
  · have hm : msgid.toNat % 256 + 256 * (msgid.toNat / 256) = msgid.toNat := by omega
    simp [unpack_HHBB, hm]

/-- Witness for C4 at the home-move short message. -/
theorem C4_witness :
    ∃ bs, pack_HBBBB 0x0443 1 0 0x50 1 = some bs ∧
      unpack_HHBB bs = some (1091, 1 + 256 * 0, 80, 1) ∧
      (1 + 256 * 0) % 256 = 1 ∧ (1 + 256 * 0) / 256 = 0 :=
  C4_short_message_roundtrip 0x0443 1 0 0x50 1 (by decide) (by decide) (by decide)
    (by decide) (by decide) (by decide) (by decide) (by decide) (by decide) (by decide)

/-- Claim C5: the destination byte for a cube session is 0x50 for every
channel, and for a benchtop session it is 0x20 + channel. -/
theorem C5_destination_addressing (channel : ℕ) :
    get_destination_byte "cube" channel = 0x50 ∧
    get_destination_byte "benchtop" channel = 0x20 + channel :=
  ⟨rfl, rfl⟩

/-- Claim C8: an unknown controller-type string (after lowering) is
rejected with the configuration exception before any serial open is
attempted, and either valid string passes the topology check. -/
theorem C8_topology_validation (ctypeArg : String) (portOpenSucceeds : Bool) :
    (pyLower ctypeArg ∉ controllerTypes →
      ThorController_init ctypeArg portOpenSucceeds = (InitResult.configError, false)) ∧
    (pyLower ctypeArg ∈ controllerTypes →
      (ThorController_init ctypeArg portOpenSucceeds).1 ≠ InitResult.configError) := by
  constructor
  · intro hno
    simp only [ThorController_init]
    rw [if_neg hno]
  · intro hyes
    simp only [ThorController_init]
    rw [if_pos hyes]
    simp

/-- Witness for C8: the string rack is rejected with no open attempt, the
string BenchTop passes the topology check. -/
theorem C8_witness :
    ThorController_init "rack" true = (InitResult.configError, false) ∧
    (ThorController_init "BenchTop" true).1 ≠ InitResult.configError :=
  ⟨(C8_topology_validation "rack" true).1 (by decide),
   (C8_topology_validation "BenchTop" true).2 (by decide)⟩

/-- Claim C9: the discovery probe never raises, returns 0x50 when any
reply bytes arrived and the sentinel 0x11 when none did, and flushes the
input and output buffers before returning in both cases. -/
theorem C9_probe_behavior (rx : List ℕ) :
    ∃ res evs, getDestination rx = some (res, evs) ∧
      (rx ≠ [] → res = 0x50) ∧ (rx = [] → res = 0x11) ∧
      Ev.flushIn ∈ evs ∧ Ev.flushOut ∈ evs := by
  cases rx with
  | nil =>
    exact ⟨0x11, _, rfl, fun hne => absurd rfl hne, fun _ => rfl, by simp, by simp⟩
  | cons a as =>
    refine ⟨0x50,
      [Ev.write [5, 0, 0, 0, 80, 1], Ev.readChunk ((a :: as).take 90), Ev.flushIn, Ev.flushOut],
      ?_, fun _ => rfl, fun hc => (List.cons_ne_nil a as hc).elim, by simp, by simp⟩
    have hp : probe_msg = some [5, 0, 0, 0, 80, 1] := rfl
    simp only [getDestination, hp]
    rw [if_pos (by rw [List.length_take, List.length_cons]; omega)]

/-- Witness for C9 at a one-byte reply. -/
theorem C9_witness :
    ∃ res evs, getDestination [1] = some (res, evs) ∧
      ([1] ≠ ([] : List ℕ) → res = 0x50) ∧ (([1] : List ℕ) = [] → res = 0x11) ∧
      Ev.flushIn ∈ evs ∧ Ev.flushOut ∈ evs :=
  C9_probe_behavior [1]

/-- Claim C10: when opening the serial port fails, the constructor still
returns a session object normally, the Serial_Port attribute is never set
on it, and subsequent operations raise AttributeError. -/
theorem C10_port_open_failure (ctypeArg : String)
    (h : pyLower ctypeArg ∈ controllerTypes) :
    ∃ s, ThorController_init ctypeArg false = (InitResult.ok s, true) ∧
      s.serialPortSet = false ∧
      (∀ channel, Stay_Alive_run s channel = Except.error PyError.attributeError) ∧
      (∀ channel, Initialize_run s channel = Except.error PyError.attributeError) := by
  refine ⟨⟨pyLower ctypeArg, false⟩, ?_, rfl, fun channel => rfl, fun channel => rfl⟩
  simp only [ThorController_init]
  rw [if_pos h]

/-- Witness for C10 at the controller type cube. -/
theorem C10_witness :
    ∃ s, ThorController_init "cube" false = (InitResult.ok s, true) ∧
      s.serialPortSet = false ∧
      (∀ channel, Stay_Alive_run s channel = Except.error PyError.attributeError) ∧
      (∀ channel, Initialize_run s channel = Except.error PyError.attributeError) :=
  C10_port_open_failure "cube" (by decide)

/-- reaches50 distributes over concatenation of command lists. -/
lemma reaches50_append (l1 l2 : List Cmd) (n : ℕ) :
    reaches50 n (l1 ++ l2) = (reaches50 n l1 || reaches50 (runCmds n l1) l2) := by
  induction l1 generalizing n with
  | nil => simp [reaches50, runCmds]
  | cons c cs ih => simp [reaches50, runCmds, List.cons_append, ih, Bool.or_assoc]

/-- Every operation other than Initialize keeps the count below 50 when
started at 48 or less, and ends with the count reset to zero. -/
lemma nonInit_trace (benchtop : Bool) (op : Op) (hop : op ≠ Op.initCtrl) (n : ℕ)
    (hn : n ≤ 48) :
    reaches50 n (opTrace benchtop op) = false ∧ runCmds n (opTrace benchtop op) = 0 := by
  cases op <;>
    first
      | exact absurd rfl hop
      | cases benchtop <;> constructor <;>
          simp [opTrace, reaches50, runCmds, step, decide_eq_false_iff_not] <;> omega

/-- Inductive bound: starting with head room for two commands per
remaining Initialize call, the count never reaches 50. -/
lemma reaches50_ops_bound (benchtop : Bool) (ops : List Op) (n : ℕ)
    (h : n + 2 * countInits ops ≤ 48) :
    reaches50 n (opsTrace benchtop ops) = false := by
  induction ops generalizing n with
  | nil => simp [opsTrace, reaches50]
  | cons op rest ih =>
    have hsplit : opsTrace benchtop (op :: rest) =
        opTrace benchtop op ++ opsTrace benchtop rest := by
      simp [opsTrace]
    rw [hsplit, reaches50_append, Bool.or_eq_false_iff]
    by_cases hop : op = Op.initCtrl
    · subst hop
      have h2 : n + 2 + 2 * countInits rest ≤ 48 := by
        simp only [countInits] at h; omega
      constructor
      · simp [opTrace, reaches50, step, decide_eq_false_iff_not]
        omega
      · have hrun : runCmds n (opTrace benchtop Op.initCtrl) = n + 2 := rfl
        rw [hrun]
        exact ih (n + 2) h2
    · have hcount : countInits (op :: rest) = countInits rest := by
        cases op <;> first | exact absurd rfl hop | simp [countInits]
      rw [hcount] at h
      obtain ⟨h1, h2⟩ := nonInit_trace benchtop op hop n (by omega)
      rw [h1, h2]
      exact ⟨rfl, ih 0 (by omega)⟩

/-- Counterexample for C6 as frozen: 25 consecutive Initialize calls
write 50 protocol commands and never a keep-alive, so the count of
commands since the last keep-alive reaches 50. -/
theorem C6_counterexample :
    reaches50 0 (opsTrace false (List.replicate 25 Op.initCtrl)) = true := by
  decide

/-- Claim C6 (amended): for every session and every finite sequence of
public operations containing at most 24 Initialize calls, the count of
protocol commands written since the last keep-alive never reaches 50;
every operation other than Initialize sends a keep-alive before the
count can reach 50.  The claim as frozen covered arbitrarily many
Initialize calls and is refuted by C6_counterexample. -/
theorem C6_keepalive_cadence (benchtop : Bool) (ops : List Op)
    (h : countInits ops ≤ 24) :
    reaches50 0 (opsTrace benchtop ops) = false :=
  reaches50_ops_bound benchtop ops 0 (by omega)

/-- Witness for C6 at a typical session script. -/
theorem C6_witness :
    countInits [Op.initCtrl, Op.enable, Op.home, Op.move_absolute, Op.get_position] ≤ 24 ∧
    reaches50 0 (opsTrace false
      [Op.initCtrl, Op.enable, Op.home, Op.move_absolute, Op.get_position]) = false :=
  ⟨by decide, C6_keepalive_cadence false _ (by decide)⟩

/-- homeWaitReads produces only read events. -/
lemma homeWaitReads_reads (rx : List (List ℕ)) (evs : List Ev)
    (h : homeWaitReads rx = some evs) : ∀ e ∈ evs, isRead e = true := by
  induction rx generalizing evs with
  | nil => simp [homeWaitReads] at h
  | cons c cs ih =>
    rw [homeWaitReads] at h
    split at h
    · have hevs : evs = [Ev.readChunk c] := (Option.some.inj h).symm
      subst hevs
      intro e he
      simp only [List.mem_singleton] at he
      subst he
      rfl
    · cases hrec : homeWaitReads cs with
      | none => rw [hrec] at h; simp at h
      | some evs2 =>
        rw [hrec] at h
        have hevs : evs = Ev.readChunk c :: evs2 := (Option.some.inj h).symm
        subst hevs
        intro e he
        rcases List.mem_cons.mp he with rfl | hmem
        · rfl
        · exact ih evs2 hrec e hmem

/-- Read events are never keep-alive writes, so a list of reads filters
to nothing under isKAwrite. -/
lemma filter_ka_of_reads (evs : List Ev) (h : ∀ e ∈ evs, isRead e = true) :
    List.filter isKAwrite evs = [] := by
  induction evs with
  | nil => rfl
  | cons e es ih =>
    have he := h e (List.mem_cons_self e es)
    have hka : isKAwrite e = false := by
      cases e <;> first | rfl | simp [isRead] at he
    simp only [List.filter_cons, hka]
    exact ih fun x hx => h x (List.mem_cons_of_mem _ hx)

/-- Byte-level form of a successful Stay_Alive message. -/
lemma Stay_Alive_msg_some (ct : String) (ch : ℕ) (ka : List ℕ)
    (h : Stay_Alive_msg ct ch = some ka) :
    ka = [146, 4, 0, 0, get_destination_byte ct ch, 1] := by
  rw [Stay_Alive_msg] at h
  rw [pack_HBBBB_some _ _ _ _ _ _ h]
  norm_num [show ((1170 : ℤ)).toNat = 1170 from rfl, show ((0 : ℤ)).toNat = 0 from rfl,
    show ((1 : ℤ)).toNat = 1 from rfl, Int.toNat_natCast]

/-- Byte-level form of a successful Home message. -/
lemma Home_msg_some (ct : String) (ch : ℕ) (hm : List ℕ)
    (h : Home_msg ct ch = some hm) :
    hm = [67, 4, 1, 0, get_destination_byte ct ch, 1] := by
  rw [Home_msg] at h
  rw [pack_HBBBB_some _ _ _ _ _ _ h]
  norm_num [show ((1091 : ℤ)).toNat = 1091 from rfl, show ((0 : ℤ)).toNat = 0 from rfl,
    show ((1 : ℤ)).toNat = 1 from rfl, Int.toNat_natCast]

/-- Claim C7: home with wait false returns immediately after the home
write with no read events, and on every return path (either wait value)
the trace ends by flushing both buffers and writing exactly one
keep-alive message. -/
theorem C7_home_return_paths (ct : String) (ch : ℕ) (wait : Bool) (rx : List (List ℕ))
    (evs : List Ev) (h : Home_events ct ch wait rx = some evs) :
    (wait = false → ∃ hm ka, Home_msg ct ch = some hm ∧ Stay_Alive_msg ct ch = some ka ∧
      evs = [Ev.write hm, Ev.flushIn, Ev.flushOut, Ev.write ka] ∧
      List.filter isRead evs = []) ∧
    (List.filter isKAwrite evs).length = 1 ∧
    (∃ pre ka, Stay_Alive_msg ct ch = some ka ∧
      evs = pre ++ [Ev.flushIn, Ev.flushOut, Ev.write ka]) := by
  cases hhm : Home_msg ct ch with
  | none => rw [Home_events, hhm] at h; simp at h
  | some hm =>
    cases hka : Stay_Alive_msg ct ch with
    | none => rw [Home_events, hhm, hka] at h; simp at h
    | some ka =>
      rw [Home_events, hhm, hka] at h
      simp only [Option.some_bind] at h
      have hkaKA : isKAwrite (Ev.write ka) = true := by
        rw [Stay_Alive_msg_some ct ch ka hka]; rfl
      have hhmKA : isKAwrite (Ev.write hm) = false := by
        rw [Home_msg_some ct ch hm hhm]; rfl
      have hfi : isKAwrite Ev.flushIn = false := rfl
      have hfo : isKAwrite Ev.flushOut = false := rfl
      cases wait with
      | false =>
        rw [if_neg (by simp)] at h
        have hevs : evs = [Ev.write hm, Ev.flushIn, Ev.flushOut, Ev.write ka] :=
          (Option.some.inj h).symm
        subst hevs
        refine ⟨fun _ => ⟨hm, ka, rfl, rfl, rfl, rfl⟩, ?_, ⟨[Ev.write hm], ka, rfl, rfl⟩⟩
        simp [List.filter_cons, hhmKA, hkaKA, hfi, hfo]
      | true =>
        rw [if_pos rfl] at h
        obtain ⟨rs, hrs, hevs⟩ := Option.map_eq_some'.mp h
        have hfilter := filter_ka_of_reads rs (homeWaitReads_reads rx rs hrs)
        refine ⟨fun hw => by simp at hw, ?_,
          ⟨Ev.write hm :: rs, ka, rfl, by rw [← hevs]; exact (List.cons_append _ _ _).symm⟩⟩
        rw [← hevs]
        simp [List.filter_cons, List.filter_append, hhmKA, hkaKA, hfi, hfo, hfilter]

/-- Witness for C7: the no-wait home on a cube session writes exactly one
keep-alive. -/
theorem C7_witness :
    (List.filter isKAwrite [Ev.write [67, 4, 1, 0, 80, 1], Ev.flushIn, Ev.flushOut,
      Ev.write [146, 4, 0, 0, 80, 1]]).length = 1 :=
  (C7_home_return_paths "cube" 1 false []
    [Ev.write [67, 4, 1, 0, 80, 1], Ev.flushIn, Ev.flushOut, Ev.write [146, 4, 0, 0, 80, 1]]
    rfl).2.1

end PyKinesis
